import Mathlib

/-!
Shallow embedding of mn/include/mn/Result.h: the Err error-message wrapper
and the Result tagged-union container, together with the collaborator string
operations from mn/Str.h that they use. The string type and the assertion
facility are external collaborators absent from the sources, so they are
modelled from the spec; everything else is translated from Result.h.
-/

/-- Modelled from the spec: the owned, growable character-sequence type Str
from mn/Str.h (absent from the sources), modelled by its character content. -/
abbrev Str : Type := List Char

/-- Modelled from the spec: str_new creates a new empty owned string. -/
def str_new : Str := []

/-- Modelled from the spec: str_clear empties the string content in place,
leaving a zero-length content. -/
def str_clear (_s : Str) : Str := []

/-- Modelled from the spec: str_push appends the content of the second string
to the first. -/
def str_push (s t : Str) : Str := s ++ t

/-- Modelled from the spec: clone deep-duplicates an owned string, producing a
new string with equal content. -/
def clone (s : Str) : Str := s

/-- Modelled from the spec: the count field of Str is the length of the
content. -/
def str_count (s : Str) : Nat := s.length

/-- The Err error-message wrapper from Result.h: it owns a message string. -/
structure Err where
  msg : Str
deriving DecidableEq

/-- Default constructor of Err: creates a new empty error (msg = str_new). -/
def Err.mkDefault : Err := ⟨str_new⟩

/-- Copy constructor of Err: deep-clones the message of the source. -/
def Err.copyConstruct (other : Err) : Err := ⟨clone other.msg⟩

/-- Move constructor of Err: takes the message of the source and resets the
source message to str_new; returns the pair (constructed object, source after
the move). -/
def Err.moveConstruct (other : Err) : Err × Err :=
  (⟨other.msg⟩, ⟨str_new⟩)

/-- Move assignment of Err: frees the destination message, takes the message
of the source, and resets the source message to str_new; returns the pair
(destination after, source after). -/
def Err.moveAssign (_dst other : Err) : Err × Err :=
  (⟨other.msg⟩, ⟨str_new⟩)

/-- Boolean conversion of Err: true iff the message count is nonzero. -/
def Err.operatorBool (e : Err) : Bool := str_count e.msg != 0

/-- Body of the Err copy assignment run on a store of message strings indexed
by object address, with this at address i and other at address j, so that
i = j models self assignment: str_clear(msg) followed by
str_push(msg, other.msg), both through the store. -/
def Err.copyAssignRun (σ : Nat → Str) (i j : Nat) : Nat → Str :=
  let σ1 := Function.update σ i (str_clear (σ i))
  Function.update σ1 i (str_push (σ1 i) (σ1 j))

/-- The STATE discriminant enum of Result, with its three enumerators. -/
inductive STATE where
  | STATE_EMPTY
  | STATE_ERROR
  | STATE_VALUE
deriving DecidableEq

/-- Numeric values of the STATE enumerators as declared in the source. -/
def STATE.val : STATE → Nat
  | .STATE_EMPTY => 0
  | .STATE_ERROR => 1
  | .STATE_VALUE => 2

/-- Content of the shared raw buffer of Result: which payload object, if any,
has been placement-constructed into it. -/
inductive Buffer (T E : Type) where
  | uninit
  | errPayload (e : E)
  | valPayload (v : T)
deriving DecidableEq

/-- The Result container from Result.h: the shared aligned buffer and the
STATE discriminant field. -/
structure Result (T E : Type) where
  buffer : Buffer T E
  state : STATE
deriving DecidableEq

/-- Constructor Result(E e): placement-constructs a copy of e into the buffer
and sets state = STATE_ERROR. -/
def Result.fromError {T E : Type} (e : E) : Result T E :=
  ⟨.errPayload e, .STATE_ERROR⟩

/-- Constructor Result(TArgs and arguments): placement-constructs T from the
forwarded arguments into the buffer and sets state = STATE_VALUE; v is the T
object that this construction produces. -/
def Result.fromValue {T E : Type} (v : T) : Result T E :=
  ⟨.valPayload v, .STATE_VALUE⟩

/-- has_error: tests the STATE_ERROR bit of the state, as state and 1. -/
def Result.has_error {T E : Type} (r : Result T E) : Bool :=
  (r.state.val &&& 1) != 0

/-- has_value: tests the STATE_VALUE bit of the state, as state and 2. -/
def Result.has_value {T E : Type} (r : Result T E) : Bool :=
  (r.state.val &&& 2) != 0

/-- Outcome of an accessor call. Modelled from the spec: mn_assert comes from
mn/Assert.h, which is absent from the sources; per the spec a false condition
deterministically aborts the process with no normal return, modelled by
assertFail. payload is the returned reference to the live object; ub is a
read of the buffer through the wrong payload type. -/
inductive AccessOutcome (α : Type) where
  | assertFail
  | payload (a : α)
  | ub
deriving DecidableEq

/-- Mutable accessor error(): mn_assert(has_error()), then return the buffer
reinterpreted as E. -/
def Result.error {T E : Type} (r : Result T E) : AccessOutcome E :=
  if r.has_error then
    match r.buffer with
    | .errPayload e => .payload e
    | _ => .ub
  else .assertFail

/-- Const accessor error() const: the same body as the mutable overload. -/
def Result.errorConst {T E : Type} (r : Result T E) : AccessOutcome E :=
  if r.has_error then
    match r.buffer with
    | .errPayload e => .payload e
    | _ => .ub
  else .assertFail

/-- Accessor value(): mn_assert(has_value()), then return the buffer
reinterpreted as T. -/
def Result.value {T E : Type} (r : Result T E) : AccessOutcome T :=
  if r.has_value then
    match r.buffer with
    | .valPayload v => .payload v
    | _ => .ub
  else .assertFail

/-- Defaulted move constructor Result(Result and source): member-wise move of
the char buffer and the enum field, which copies both and leaves the members
of the source unchanged; returns (constructed object, source after move). -/
def Result.moveConstruct {T E : Type} (src : Result T E) : Result T E × Result T E :=
  (⟨src.buffer, src.state⟩, src)

/-- Defaulted move assignment of Result: member-wise, the same transfer as the
move constructor; returns (destination after, source after). -/
def Result.moveAssign {T E : Type} (_dst src : Result T E) : Result T E × Result T E :=
  (⟨src.buffer, src.state⟩, src)

/-- Destructor of Result: which payload destructors run, as the pair
(E destructor runs, T destructor runs), selected by the two independent bit
tests state and STATE_ERROR, state and STATE_VALUE, exactly as in ~Result. -/
def Result.dtorRuns {T E : Type} (r : Result T E) : Bool × Bool :=
  ((r.state.val &&& 1) != 0, (r.state.val &&& 2) != 0)

/-- Codes naming C++ types in instantiation examples of Result. -/
inductive CppType where
  | tErr
  | tInt
  | tFloat
deriving DecidableEq

/-- The static check in Result: the static_assert rejects
std::is_same_v of Err and T; it mentions only the concrete default error type
Err and the parameter T, never the parameter E. -/
def resultStaticAssertPasses (T _E : CppType) : Bool := T != CppType.tErr

/-- The accessor overload surface of Result: whether each pair of member
function and constness is declared. -/
structure ResultAccessorSurface where
  error_const : Bool
  error_mut : Bool
  value_const : Bool
  value_mut : Bool
deriving DecidableEq

/-- The overloads Result.h declares at lines 115 to 131: const and mutable
error, a mutable value, and no const value. -/
def resultAccessorSurface : ResultAccessorSurface :=
  ⟨true, true, false, true⟩

/-- C1: a Result produced by either public constructor has exactly one of
has_error and has_value true immediately after construction: the error
constructor yields has_error true and has_value false, the value constructor
the reverse; never both, never neither. -/
theorem C1_discriminant_exclusivity {T E : Type} (e : E) (v : T) :
    ((Result.fromError (T := T) e).has_error = true ∧
     (Result.fromError (T := T) e).has_value = false) ∧
    ((Result.fromValue (E := E) v).has_value = true ∧
     (Result.fromValue (E := E) v).has_error = false) := by
  refine ⟨⟨?_, ?_⟩, ⟨?_, ?_⟩⟩ <;>
    simp [Result.has_error, Result.has_value, Result.fromError, Result.fromValue, STATE.val]

/-- C2: value() on a Result whose discriminant is STATE_ERROR, and error() in
either overload on a Result whose discriminant is STATE_VALUE, trigger the
fatal assertion and do not return normally; on a Result constructed so that
the respective precondition holds, the assertion does not fire and the live
payload is returned. -/
theorem C2_misuse_asserts {T E : Type} (e : E) (v : T) :
    (Result.fromError (T := T) e).value = .assertFail ∧
    (Result.fromValue (E := E) v).error = .assertFail ∧
    (Result.fromValue (E := E) v).errorConst = .assertFail ∧
    (Result.fromError (T := T) e).error = .payload e ∧
    (Result.fromError (T := T) e).errorConst = .payload e ∧
    (Result.fromValue (E := E) v).value = .payload v := by
  refine ⟨?_, ?_, ?_, ?_, ?_, ?_⟩ <;>
    simp [Result.value, Result.error, Result.errorConst, Result.has_error, Result.has_value,
      Result.fromError, Result.fromValue, STATE.val]

/-- C3: constructing a Result from a value v of type T and then reading
value() yields a payload equal to v, and has_error is false on that result. -/
theorem C3_round_trip_value {T E : Type} (v : T) :
    (Result.fromValue (E := E) v).value = .payload v ∧
    (Result.fromValue (E := E) v).has_error = false := by
  refine ⟨?_, ?_⟩ <;>
    simp [Result.value, Result.has_error, Result.has_value, Result.fromValue, STATE.val]

/-- C4: for an Err e with non-empty message, a Result constructed from e
stores a copy made by the Err copy constructor; reading error() yields a
payload whose message equals the message of e, and has_value is false. -/
theorem C4_round_trip_error {T : Type} (e : Err) (h : str_count e.msg ≠ 0) :
    ∃ p : Err,
      (Result.fromError (T := T) (Err.copyConstruct e)).error = .payload p ∧
      p.msg = e.msg ∧
      (Result.fromError (T := T) (Err.copyConstruct e)).has_value = false := by
  refine ⟨Err.copyConstruct e, ?_, rfl, ?_⟩ <;>
    simp [Result.error, Result.has_error, Result.has_value, Result.fromError, STATE.val]

/-- Witness for C4 at the concrete error message x, with T = Nat. -/
theorem C4_round_trip_error_witness :
    str_count (Err.mk ['x']).msg ≠ 0 ∧
    ∃ p : Err,
      (Result.fromError (T := Nat) (Err.copyConstruct (Err.mk ['x']))).error = .payload p ∧
      p.msg = (Err.mk ['x']).msg ∧
      (Result.fromError (T := Nat) (Err.copyConstruct (Err.mk ['x']))).has_value = false :=
  ⟨by decide, C4_round_trip_error (Err.mk ['x']) (by decide)⟩

/-- C5 counterexample: instantiating Result with T and E both int, so that T
equals the error type, is accepted by the static check, refuting the claim
that T = E is rejected for every choice of E. -/
theorem C5_static_assert_counterexample :
    CppType.tInt = CppType.tInt ∧
    resultStaticAssertPasses CppType.tInt CppType.tInt = true := by
  decide

/-- C5 amended: the static check rejects exactly the instantiations whose T is
the concrete default error type Err, for every choice of E; instantiating with
T equal to a custom error type E other than Err passes the check. -/
theorem C5_static_assert_rejects_only_Err (T E : CppType) :
    resultStaticAssertPasses T E = false ↔ T = CppType.tErr := by
  cases T <;> simp [resultStaticAssertPasses]

/-- C6 counterexample: self copy assignment of an Err holding the message x
leaves the message empty, not x, so the clear-then-append body is not
equivalent to replacement when source and destination alias. -/
theorem C6_copy_assign_counterexample :
    Err.copyAssignRun (fun _ => ['x']) 0 0 0 ≠ ['x'] ∧
    Err.copyAssignRun (fun _ => ['x']) 0 0 0 = [] := by
  constructor
  · simp [Err.copyAssignRun, str_clear, str_push]
  · simp [Err.copyAssignRun, str_clear, str_push]

/-- C6 amended: for two distinct Err objects, the copy assignment body, clear
then append, leaves in the destination exactly the message the source held
before the assignment, so it is equivalent to replacement; under self
assignment the message becomes empty instead of being preserved. -/
theorem C6_copy_assign_replacement (σ : Nat → Str) (i j : Nat) :
    (i ≠ j → Err.copyAssignRun σ i j i = σ j) ∧
    Err.copyAssignRun σ i i i = [] := by
  constructor
  · intro hij
    simp [Err.copyAssignRun, str_clear, str_push, Function.update_same,
      Function.update_noteq (Ne.symm hij)]
  · simp [Err.copyAssignRun, str_clear, str_push, Function.update_same]

/-- Witness for C6 amended at a concrete two-object store. -/
theorem C6_copy_assign_replacement_witness :
    (0 : Nat) ≠ 1 ∧
    Err.copyAssignRun (fun n => if n = 0 then ['a'] else ['b']) 0 1 0 = ['b'] := by
  refine ⟨by decide, ?_⟩
  exact (C6_copy_assign_replacement (fun n => if n = 0 then ['a'] else ['b']) 0 1).1
    (by decide)

/-- C7: the defaulted Result move constructor and move assignment transfer the
buffer and the discriminant member-wise, so the destination equals the source
as a record, reporting the same has_error and has_value over the same payload;
the source keeps its pre-move discriminant rather than being reset to
STATE_EMPTY, and its destructor selects payload destructors from that retained
discriminant. -/
theorem C7_move_memberwise {T E : Type} (d r : Result T E) :
    ((Result.moveConstruct r).1 = r ∧
     (Result.moveConstruct r).2.state = r.state ∧
     (Result.moveConstruct r).2.dtorRuns = r.dtorRuns) ∧
    ((Result.moveAssign d r).1 = r ∧
     (Result.moveAssign d r).2.state = r.state ∧
     (Result.moveAssign d r).2.dtorRuns = r.dtorRuns) :=
  ⟨⟨rfl, rfl, rfl⟩, ⟨rfl, rfl, rfl⟩⟩

/-- C8: after move-constructing or move-assigning an Err from a source object,
the boolean conversion of the source is false because its message was reset to
the empty string, while the destination carries the message the source held
before the move. -/
theorem C8_move_empties_source (d o : Err) :
    ((Err.moveConstruct o).2.operatorBool = false ∧
     (Err.moveConstruct o).1.msg = o.msg) ∧
    ((Err.moveAssign d o).2.operatorBool = false ∧
     (Err.moveAssign d o).1.msg = o.msg) :=
  ⟨⟨rfl, rfl⟩, ⟨rfl, rfl⟩⟩

/-- C9: the destructor of Result runs the E payload destructor exactly when
the discriminant is STATE_ERROR and the T payload destructor exactly when it
is STATE_VALUE; when it is STATE_EMPTY neither runs, and in each of the three
states the destructor of the inactive alternative is never invoked. -/
theorem C9_destructor_selection {T E : Type} (r : Result T E) :
    r.dtorRuns = (decide (r.state = .STATE_ERROR), decide (r.state = .STATE_VALUE)) := by
  cases r with
  | mk b st => cases st <;> simp [Result.dtorRuns, STATE.val]

/-- C10: the declared accessor overloads of Result are a const error, a
mutable error and a mutable value; no const overload of value exists, so the
member-function interface offers no way to read the value payload of a const
Result. -/
theorem C10_value_accessor_mutable_only :
    resultAccessorSurface.error_const = true ∧
    resultAccessorSurface.error_mut = true ∧
    resultAccessorSurface.value_mut = true ∧
    resultAccessorSurface.value_const = false := by
  decide
